import Mathlib

/-!
# Verification of the ToaruOS x86_64 user-transition and serial-port code

This file is a shallow embedding of the two source files
`kernel/arch/x86_64/serial.c` and `kernel/arch/x86_64/user.c`.

Conventions of the embedding:

* Machine integers are `Nat`; where 64-bit wraparound matters the value is
  reduced explicitly modulo `2 ^ 64`.
* Hardware I/O-port reads are inputs taken from an explicit hardware-state
  record (`SerialHW` for the UART receive FIFOs and status bits, a status
  stream for the keyboard controller); I/O-port writes and calls into
  external kernel subsystems (`irq_ack`, `wakeup_queue`, `tty_input_process`,
  `irq_install_handler`, `lapic_send_ipi`) are recorded as events or entries
  in result lists.
* Loops that poll a hardware flag while yielding (`serial_recv`,
  the keyboard-controller wait in `arch_reboot`) are modelled under the
  assumption that the hardware state does not change while they spin, so a
  poll of a condition that is false diverges; divergence is made explicit
  (an `Option` result of `none`, or a `suspended := false` outcome for the
  wakeup cycle of the serial worker).
-/

namespace Toaru

/-! ## Serial driver (`kernel/arch/x86_64/serial.c`) -/

def SERIAL_PORT_A : Nat := 0x3F8
def SERIAL_PORT_B : Nat := 0x2F8
def SERIAL_PORT_C : Nat := 0x3E8
def SERIAL_PORT_D : Nat := 0x2E8

def SERIAL_IRQ_AC : Nat := 4
def SERIAL_IRQ_BD : Nat := 3

/-- The four pty globals `_serial_port_pty_a` .. `_serial_port_pty_d`,
identified by which slot (and hence which line-discipline endpoint) they
denote. -/
inductive PtySlot
  | a
  | b
  | c
  | d
deriving Repr, DecidableEq

/-- Embedding of `pty_for_port` (serial.c:38-46): maps a port base address to the pty
slot for that port.  The C switch falls through to
`__builtin_unreachable()` on any other value; that branch is `none` here. -/
def pty_for_port (port : Nat) : Option PtySlot :=
  if port = SERIAL_PORT_A then some PtySlot.a
  else if port = SERIAL_PORT_B then some PtySlot.b
  else if port = SERIAL_PORT_C then some PtySlot.c
  else if port = SERIAL_PORT_D then some PtySlot.d
  else none

/-- UART hardware state visible to the worker during one wakeup cycle.

`rx p` is the pending receive FIFO of the port with base address `p`
(`inportb(p+5) & 1`, the data-ready bit read by `serial_rcvd`, is modelled
as `rx p ≠ []`, and `inportb(p)` dequeues the head).  `flagBit p` is bit 0
of `inportb(p+1)` — the register the worker checks after waking
(serial.c:79); its value is supplied by the environment. -/
structure SerialHW where
  rx : Nat → List Nat
  flagBit : Nat → Bool

/-- Embedding of `serial_rcvd` (serial.c:48-50): `inportb(device + 5) & 1`. -/
def serial_rcvd (hw : SerialHW) (device : Nat) : Bool :=
  !(hw.rx device).isEmpty

/-- The port the worker selects after waking (serial.c:79-83):
`port = (inportb(portBase+1) & 0x01) ? portBase : portBase - 0x100`. -/
def computedPort (hw : SerialHW) (portBase : Nat) : Nat :=
  if hw.flagBit portBase then portBase else portBase - 0x100

/-- One run of the drain loop of the worker, `do { ch = serial_recv(port); ...;
tty_input_process(pty, ch); next = serial_rcvd(port); } while (next)` loop
(serial.c:84-92) over a FIFO whose contents are `fifo`, feeding the
endpoint `slot`.  Returns the list of `tty_input_process` calls made
(endpoint, byte) and whether the loop terminated: `serial_recv` on an
empty FIFO polls `serial_rcvd` forever (serial.c:53), so with no new
arrivals the loop never terminates and makes no calls. -/
def drainRun (slot : Option PtySlot) : List Nat → List (Option PtySlot × Nat) × Bool
  | [] => ([], false)
  | ch :: rest =>
    match rest with
    | [] => ([(slot, ch)], true)
    | r :: rs =>
      let t := drainRun slot (r :: rs)
      ((slot, ch) :: t.1, t.2)

/-- Outcome of one wakeup of a serial worker: the `tty_input_process`
calls it made, whether it got back to `sleep_on` (the `Suspended` state),
and the hardware state afterwards. -/
structure CycleResult where
  feeds : List (Option PtySlot × Nat)
  suspended : Bool
  hw : SerialHW

/-- One iteration of the `while (1)` body of `process_serial` after `sleep_on`
returns (serial.c:75-93).  `isAC` tells which worker this is:
`portBase = (argp == sem_serial_ac) ? SERIAL_PORT_A : SERIAL_PORT_B`
(serial.c:72). -/
def processSerialCycle (isAC : Bool) (hw : SerialHW) : CycleResult :=
  let portBase := if isAC then SERIAL_PORT_A else SERIAL_PORT_B
  let port := computedPort hw portBase
  let t := drainRun (pty_for_port port) (hw.rx port)
  { feeds := t.1
    suspended := t.2
    hw := if t.2 then
            { hw with rx := fun p => if p = port then [] else hw.rx p }
          else hw }

/-- Convenience constructor: a hardware state with the given FIFOs on the
four known ports, empty FIFOs elsewhere, and a constant flag bit. -/
def mkHW (fa fb fc fd : List Nat) (flag : Bool) : SerialHW :=
  { rx := fun p =>
      if p = SERIAL_PORT_A then fa
      else if p = SERIAL_PORT_B then fb
      else if p = SERIAL_PORT_C then fc
      else if p = SERIAL_PORT_D then fd
      else []
    flagBit := fun _ => flag }

/-- Interrupt-handler side effects.  `ack line` is `irq_ack(line)`,
`wake q` is `wakeup_queue(q)`; the remaining constructors classify actions
the handlers could have taken but do not: device I/O-port accesses,
blocking (`sleep_on`/`switch_task`) and allocation. -/
inductive HandlerEvent
  | ack (line : Nat)
  | wake (q : Bool)
  | portRead (addr : Nat)
  | portWrite (addr : Nat)
  | blockOp
  | allocOp
deriving Repr, DecidableEq

/-- Holds for device I/O-port accesses. -/
def HandlerEvent.isDeviceIO : HandlerEvent → Bool
  | portRead _ => true
  | portWrite _ => true
  | _ => false

/-- Holds for actions that block or allocate. -/
def HandlerEvent.blocksOrAllocates : HandlerEvent → Bool
  | blockOp => true
  | allocOp => true
  | _ => false

/-- Wait-queue identities: `true` is `sem_serial_ac`, `false` is
`sem_serial_bd`. -/
def QUEUE_AC : Bool := true
def QUEUE_BD : Bool := false

/-- Embedding of `serial_handler_ac` (serial.c:96-100): `irq_ack(SERIAL_IRQ_AC);
wakeup_queue(sem_serial_ac); return 1;`.  The result is the event trace in
source order paired with the returned value; the `regs` argument is
unused, as in the source. -/
def serial_handler_ac (_r : Unit) : List HandlerEvent × Nat :=
  ([HandlerEvent.ack SERIAL_IRQ_AC, HandlerEvent.wake QUEUE_AC], 1)

/-- Embedding of `serial_handler_bd` (serial.c:102-106). -/
def serial_handler_bd (_r : Unit) : List HandlerEvent × Nat :=
  ([HandlerEvent.ack SERIAL_IRQ_BD, HandlerEvent.wake QUEUE_BD], 1)

/-- The IRQ-registration state touched by `serial_device_create`:
the one-time flags `have_installed_ac` / `have_installed_bd`
(serial.c:119-120) and the list of IRQ lines passed to
`irq_install_handler`, in call order. -/
structure SerialKState where
  have_installed_ac : Bool
  have_installed_bd : Bool
  installs : List Nat
deriving Repr, DecidableEq

/-- Bool form of `port == SERIAL_PORT_A || port == SERIAL_PORT_C`
(serial.c:150). -/
def isACPort (port : Nat) : Bool :=
  port == SERIAL_PORT_A || port == SERIAL_PORT_C

/-- The IRQ-registration effect of `serial_device_create` (serial.c:142-166).
The pty creation, callback wiring, baud programming (`serial_enable`) and
the returned slave node do not touch this state and are not any claim
subject here; only the guarded `irq_install_handler` calls are recorded. -/
def serial_device_create (port : Nat) (s : SerialKState) : SerialKState :=
  if isACPort port then
    if !s.have_installed_ac then
      { s with have_installed_ac := true
               installs := s.installs ++ [SERIAL_IRQ_AC] }
    else s
  else
    if !s.have_installed_bd then
      { s with have_installed_bd := true
               installs := s.installs ++ [SERIAL_IRQ_BD] }
    else s

/-- Initial registration state: both one-time flags clear, no handler
installed (serial.c:119-120). -/
def serialInit : SerialKState :=
  { have_installed_ac := false, have_installed_bd := false, installs := [] }

/-- A sequence of `serial_device_create` calls starting from `s`. -/
def bringUpFrom (s : SerialKState) (ports : List Nat) : SerialKState :=
  ports.foldl (fun t p => serial_device_create p t) s

/-- A sequence of `serial_device_create` calls from the initial state
(as `serial_initialize`, serial.c:175-178, does for the four ports). -/
def bringUp (ports : List Nat) : SerialKState :=
  bringUpFrom serialInit ports

/-! ## User transitions (`kernel/arch/x86_64/user.c`) -/

/-- The subset of `struct regs` (declared in `regs.h`, outside the shown
sources) that the shown code reads or writes, completed with the remaining
registers that the structure the spec calls saved registers at trap entry carries, so
that "every other field" is meaningful. -/
structure Regs where
  r15 : Nat
  r14 : Nat
  r13 : Nat
  r12 : Nat
  r11 : Nat
  r10 : Nat
  r9 : Nat
  r8 : Nat
  rbp : Nat
  rdi : Nat
  rsi : Nat
  rdx : Nat
  rcx : Nat
  rbx : Nat
  rax : Nat
  int_no : Nat
  err_code : Nat
  rip : Nat
  cs : Nat
  rflags : Nat
  rsp : Nat
  ss : Nat
deriving Repr, DecidableEq

/-- Embedding of `arch_syscall_return` (user.c:208): `r->rax = retval`. -/
def arch_syscall_return (r : Regs) (retval : Nat) : Regs :=
  { r with rax := retval }

/-- Embedding of `arch_syscall_number` (user.c:209). -/
def arch_syscall_number (r : Regs) : Nat := r.rax

/-- Embedding of `arch_syscall_arg0` (user.c:210). -/
def arch_syscall_arg0 (r : Regs) : Nat := r.rbx

/-- Embedding of `arch_syscall_arg1` (user.c:211). -/
def arch_syscall_arg1 (r : Regs) : Nat := r.rcx

/-- Embedding of `arch_syscall_arg2` (user.c:212). -/
def arch_syscall_arg2 (r : Regs) : Nat := r.rdx

/-- Embedding of `arch_syscall_arg3` (user.c:213). -/
def arch_syscall_arg3 (r : Regs) : Nat := r.rsi

/-- Embedding of `arch_syscall_arg4` (user.c:214). -/
def arch_syscall_arg4 (r : Regs) : Nat := r.rdi

/-- Embedding of `arch_stack_pointer` (user.c:215). -/
def arch_stack_pointer (r : Regs) : Nat := r.rsp

/-- Embedding of `arch_user_ip` (user.c:216). -/
def arch_user_ip (r : Regs) : Nat := r.rip

/-- The five-field trap frame `arch_enter_user` and
`arch_enter_signal_handler` build on the kernel stack and feed to `iretq`
(the five `pushq` instructions, user.c:37-44 and 71-78). -/
structure TrapFrame where
  cs : Nat
  ss : Nat
  rip : Nat
  rflags : Nat
  rsp : Nat
deriving Repr, DecidableEq

/-- State handed to `iretq` by `arch_enter_user`: the trap frame plus the
argument registers the inline asm loads (`"D"(argc), "S"(argv),
"d"(envp)`, user.c:46). -/
structure EnterUserState where
  frame : TrapFrame
  rdi : Nat
  rsi : Nat
  rdx : Nat
deriving Repr, DecidableEq

/-- Embedding of `arch_enter_user` (user.c:29-47). -/
def arch_enter_user (entrypoint argc argv envp stack : Nat) : EnterUserState :=
  { frame :=
      { cs := 0x18 ||| 0x03
        ss := 0x20 ||| 0x03
        rip := entrypoint
        rflags := (1 <<< 21) ||| (1 <<< 9)
        rsp := stack }
    rdi := argc
    rsi := argv
    rdx := envp }

/-- Modulus of 64-bit `uintptr_t` arithmetic. -/
def UINT64_MOD : Nat := 2 ^ 64

/-- The stack-pointer computation of `arch_enter_signal_handler`
(user.c:68): `(prevRsp - 128 - 8) & 0xFFFFFFFFFFFFFFF0` in `uintptr_t`
arithmetic, where `prevRsp` is
`this_core->current_process->syscall_registers->rsp`.  The C subtraction
wraps modulo `2 ^ 64`, rendered here as adding `2 ^ 64 - 136`. -/
def signalHandlerRsp (prevRsp : Nat) : Nat :=
  ((prevRsp + (UINT64_MOD - 128 - 8)) % UINT64_MOD) &&& 0xFFFFFFFFFFFFFFF0

/-- State produced by `arch_enter_signal_handler`: the trap frame, the
user memory after the sentinel store (one 64-bit word per address), and
the `signum` argument register (`"D"(signum)`, user.c:80). -/
structure SignalEntryState where
  frame : TrapFrame
  mem : Nat → Nat
  rdi : Nat

/-- Embedding of `arch_enter_signal_handler` (user.c:62-82).  `prevRsp` is the
previously recorded trap-entry stack pointer of the current thread and
`mem` the user memory before the call; the store
`*(uintptr_t*)ret.rsp = 0x00000008DEADBEEF` (user.c:69) becomes a point
update of `mem`. -/
def arch_enter_signal_handler (entrypoint signum prevRsp : Nat)
    (mem : Nat → Nat) : SignalEntryState :=
  let rsp := signalHandlerRsp prevRsp
  { frame :=
      { cs := 0x18 ||| 0x03
        ss := 0x20 ||| 0x03
        rip := entrypoint
        rflags := (1 <<< 21) ||| (1 <<< 9)
        rsp := rsp }
    mem := fun a => if a = rsp then 0x00000008DEADBEEF else mem a
    rdi := signum }

/-- One `lapic_send_ipi(processor_local_data[i].lapic_id, 0x447D)` call:
the loop index (the target core), the LAPIC id it resolves to, and the
IPI payload. -/
structure IPI where
  core : Nat
  lapicId : Nat
  val : Nat
deriving Repr, DecidableEq

/-- Embedding of `arch_fatal_prepare` (user.c:160-165): for each `i` below
`processor_count`, skip `i == this_core->cpu_id`, otherwise send the halt
IPI `0x447D` to the LAPIC of core `i`.  Returns the IPIs sent, in order. -/
def arch_fatal_prepare (processorCount cpuId : Nat)
    (lapicId : Nat → Nat) : List IPI :=
  (List.range processorCount).filterMap fun i =>
    if i = cpuId then none else some ⟨i, lapicId i, 0x447D⟩

/-- Bool test: did this IPI deliver the halt payload `0x447D` to core
`i`? -/
def sentHaltTo (i : Nat) (e : IPI) : Bool :=
  e.core == i && e.val == 0x447D

/-- The `while ((out & 0x02) != 0) out = inportb(0x64);` wait of
`arch_reboot` (user.c:199-202).  `stat k` is the value the k-th read of
port 0x64 returns; the result is the index of the first read with bit
0x02 clear, `none` if no read among the first `fuel` ones has it clear
(the loop is still spinning).  `out` starts at `0x02`, so the loop always
reads at least once. -/
def kbdWaitReadyFrom (stat : Nat → Nat) (i : Nat) : Nat → Option Nat
  | 0 => none
  | fuel + 1 =>
    if stat i &&& 0x02 = 0 then some i
    else kbdWaitReadyFrom stat (i + 1) fuel

/-- Embedding of `arch_reboot` (user.c:190-205), from the keyboard-controller wait on:
once a read of port 0x64 shows bit 0x02 clear, write `0xFE` to port 0x64
and return 0.  The result is `none` while the wait loop has not observed
the ready bit within `fuel` reads (the call has not returned), otherwise
the port writes performed and the returned value.  The IDT-clearing
prologue (user.c:192-198) touches only descriptor state and is not
modelled. -/
def arch_reboot (stat : Nat → Nat) (fuel : Nat) :
    Option (List (Nat × Nat) × Int) :=
  match kbdWaitReadyFrom stat 0 fuel with
  | none => none
  | some _ => some ([(0x64, 0xFE)], 0)

/-- Modelled from the spec: the callers of `arch_reboot` are outside the
shown sources; the spec says a return "signals non-success (a failure
indication) to the caller".  For a C `long` result the conventional
failure indication is a nonzero (negative) value, 0 being success. -/
def signalsNonSuccess (v : Int) : Prop := v ≠ 0

/-! ## Concrete hardware states used as inputs -/

/-- One byte (0x41) pending on port C (0x3E8), nothing elsewhere. -/
def hwByteOnC (flag : Bool) : SerialHW := mkHW [] [] [0x41] [] flag

/-- Bytes pending on both ports of the AC pair: 0x41 on port A, 0x42 on
port C; the flag bit of the base port reads set. -/
def hwBothAC : SerialHW := mkHW [0x41] [] [0x42] [] true

/-- Open-bus hardware state for the BD worker: the nonexistent port
0x1F8 = 0x2F8 - 0x100 reads as 0xFF (floating bus), the flag bit of the
base port reads clear. -/
def hwOpenBusBD : SerialHW :=
  { rx := fun p => if p = 0x1F8 then [0xFF] else []
    flagBit := fun _ => false }

/-! ## Theorems -/

/-- Claim C3: for every (entrypoint, argc, argv, envp, stack) tuple, the
trap frame built by `arch_enter_user` has code and stack selectors with
requested privilege level 3, instruction pointer equal to the entrypoint,
stack pointer equal to the given stack, and a flags word with the
interrupts-enabled bit (bit 9) and the architecture-convention bit
(bit 21) set. -/
theorem arch_enter_user_frame_props (entrypoint argc argv envp stack : Nat) :
    (arch_enter_user entrypoint argc argv envp stack).frame.cs &&& 3 = 3 ∧
    (arch_enter_user entrypoint argc argv envp stack).frame.ss &&& 3 = 3 ∧
    (arch_enter_user entrypoint argc argv envp stack).frame.rip = entrypoint ∧
    (arch_enter_user entrypoint argc argv envp stack).frame.rsp = stack ∧
    (arch_enter_user entrypoint argc argv envp stack).frame.rflags.testBit 9 = true ∧
    (arch_enter_user entrypoint argc argv envp stack).frame.rflags.testBit 21 = true := by
  refine ⟨?_, ?_, rfl, rfl, ?_, ?_⟩
  · show (0x18 ||| 0x03 : Nat) &&& 3 = 3
    decide
  · show (0x20 ||| 0x03 : Nat) &&& 3 = 3
    decide
  · show ((1 <<< 21) ||| (1 <<< 9) : Nat).testBit 9 = true
    decide
  · show ((1 <<< 21) ||| (1 <<< 9) : Nat).testBit 21 = true
    decide

/-- Claim C9: `arch_syscall_return` writes only the `rax` field, leaving
every other field of the saved-register structure unchanged, and each read
accessor returns exactly its field of the structure (the accessors are
pure projections and modify nothing). -/
theorem syscall_accessors_pure_projections (r : Regs) (retval : Nat) :
    (arch_syscall_return r retval).rax = retval ∧
    (arch_syscall_return r retval).r15 = r.r15 ∧
    (arch_syscall_return r retval).r14 = r.r14 ∧
    (arch_syscall_return r retval).r13 = r.r13 ∧
    (arch_syscall_return r retval).r12 = r.r12 ∧
    (arch_syscall_return r retval).r11 = r.r11 ∧
    (arch_syscall_return r retval).r10 = r.r10 ∧
    (arch_syscall_return r retval).r9 = r.r9 ∧
    (arch_syscall_return r retval).r8 = r.r8 ∧
    (arch_syscall_return r retval).rbp = r.rbp ∧
    (arch_syscall_return r retval).rdi = r.rdi ∧
    (arch_syscall_return r retval).rsi = r.rsi ∧
    (arch_syscall_return r retval).rdx = r.rdx ∧
    (arch_syscall_return r retval).rcx = r.rcx ∧
    (arch_syscall_return r retval).rbx = r.rbx ∧
    (arch_syscall_return r retval).int_no = r.int_no ∧
    (arch_syscall_return r retval).err_code = r.err_code ∧
    (arch_syscall_return r retval).rip = r.rip ∧
    (arch_syscall_return r retval).cs = r.cs ∧
    (arch_syscall_return r retval).rflags = r.rflags ∧
    (arch_syscall_return r retval).rsp = r.rsp ∧
    (arch_syscall_return r retval).ss = r.ss ∧
    arch_syscall_number r = r.rax ∧
    arch_syscall_arg0 r = r.rbx ∧
    arch_syscall_arg1 r = r.rcx ∧
    arch_syscall_arg2 r = r.rdx ∧
    arch_syscall_arg3 r = r.rsi ∧
    arch_syscall_arg4 r = r.rdi ∧
    arch_stack_pointer r = r.rsp ∧
    arch_user_ip r = r.rip :=
  ⟨rfl, rfl, rfl, rfl, rfl, rfl, rfl, rfl, rfl, rfl, rfl, rfl, rfl, rfl,
   rfl, rfl, rfl, rfl, rfl, rfl, rfl, rfl, rfl, rfl, rfl, rfl, rfl, rfl,
   rfl, rfl⟩

/-- Claim C8: each serial interrupt handler first acknowledges its IRQ
line at the controller, wakes its wait queue exactly once and only after
the acknowledgment (the wake is the last of the two events), returns 1,
and performs no device I/O-port access, no blocking and no allocation. -/
theorem serial_handlers_ack_then_wake (r : Unit) :
    (serial_handler_ac r).1.head? = some (HandlerEvent.ack SERIAL_IRQ_AC) ∧
    (serial_handler_ac r).1.count (HandlerEvent.wake QUEUE_AC) = 1 ∧
    (serial_handler_ac r).1.getLast? = some (HandlerEvent.wake QUEUE_AC) ∧
    ((serial_handler_ac r).1.all
      fun e => !e.isDeviceIO && !e.blocksOrAllocates) = true ∧
    (serial_handler_ac r).2 = 1 ∧
    (serial_handler_bd r).1.head? = some (HandlerEvent.ack SERIAL_IRQ_BD) ∧
    (serial_handler_bd r).1.count (HandlerEvent.wake QUEUE_BD) = 1 ∧
    (serial_handler_bd r).1.getLast? = some (HandlerEvent.wake QUEUE_BD) ∧
    ((serial_handler_bd r).1.all
      fun e => !e.isDeviceIO && !e.blocksOrAllocates) = true ∧
    (serial_handler_bd r).2 = 1 := by
  cases r
  decide

/-- Claim C10 (code bug): when the BD worker (base 0x2F8) wakes and the
flag bit it checks reads clear, it computes the port
0x2F8 - 0x100 = 0x1F8, which is none of the four known port addresses, so
`pty_for_port` reaches its `__builtin_unreachable()` fall-through
(`none`); with the nonexistent port reading as open bus the cycle even
feeds a byte to the unreachable endpoint.  (The intended secondary port of
the pair is base - 0x10.) -/
theorem bd_worker_reaches_unreachable_port :
    computedPort hwOpenBusBD SERIAL_PORT_B = 0x1F8 ∧
    pty_for_port 0x1F8 = none ∧
    (processSerialCycle false hwOpenBusBD).feeds = [(none, 0xFF)] := by
  refine ⟨rfl, rfl, rfl⟩

/-- Claim C1 (code bug): after a wakeup of the AC worker with the receive
FIFOs of ports 0x3F8 and 0x2F8 empty — in particular when the only
pending byte sits on port 0x3E8, the second port of the AC pair — the
worker makes no `tty_input_process` call at all and never returns to the
`Suspended` state: whichever way the flag bit reads, it selects port
0x3F8 or 0x3F8 - 0x100 = 0x2F8 (never 0x3E8) and polls an empty FIFO
forever. -/
theorem ac_worker_starves_port_c (hw : SerialHW)
    (hA : hw.rx SERIAL_PORT_A = []) (hB : hw.rx SERIAL_PORT_B = []) :
    (processSerialCycle true hw).feeds = [] ∧
    (processSerialCycle true hw).suspended = false := by
  cases hfl : hw.flagBit SERIAL_PORT_A
  · have hcp : computedPort hw SERIAL_PORT_A = SERIAL_PORT_B := by
      simp [computedPort, hfl]
      norm_num [SERIAL_PORT_A, SERIAL_PORT_B]
    simp [processSerialCycle, hcp, hB, drainRun]
  · have hcp : computedPort hw SERIAL_PORT_A = SERIAL_PORT_A := by
      simp [computedPort, hfl]
    simp [processSerialCycle, hcp, hA, drainRun]

/-- Witness for `ac_worker_starves_port_c`: the byte 0x41 pending on port
0x3E8 only (flag bit reading set). -/
theorem ac_worker_starves_port_c_witness :
    (hwByteOnC true).rx SERIAL_PORT_A = [] ∧
    (hwByteOnC true).rx SERIAL_PORT_B = [] ∧
    ((processSerialCycle true (hwByteOnC true)).feeds = [] ∧
     (processSerialCycle true (hwByteOnC true)).suspended = false) :=
  ⟨rfl, rfl, ac_worker_starves_port_c (hwByteOnC true) rfl rfl⟩

/-- Helper: draining a nonempty FIFO terminates and feeds every byte, in
order, to the selected endpoint. -/
theorem drainRun_nonempty (slot : Option PtySlot) :
    ∀ l : List Nat, l ≠ [] →
      drainRun slot l = (l.map fun b => (slot, b), true)
  | [], h => absurd rfl h
  | [_], _ => rfl
  | a :: b :: u, _ => by
    have ih := drainRun_nonempty slot (b :: u) (by simp)
    simp [drainRun, ih]

/-- Claim C5 counterexample: with bytes pending on both ports of the AC
pair (0x41 on port 0x3F8, 0x42 on port 0x3E8) and the checked flag bit
reading set, a single wakeup returns the worker to `Suspended` after
feeding only the byte of the base port; the byte of the second port is
still pending and its endpoint received nothing. -/
theorem both_ports_pending_second_not_drained :
    (processSerialCycle true hwBothAC).suspended = true ∧
    (processSerialCycle true hwBothAC).feeds = [(some PtySlot.a, 0x41)] ∧
    (processSerialCycle true hwBothAC).hw.rx SERIAL_PORT_C = [0x42] :=
  ⟨rfl, rfl, rfl⟩

/-- Claim C5 as amended: upon one wakeup the AC worker drains exactly one
port — with the flag bit of the base port reading set, the base port —
feeding its bytes in order to the endpoint of that port, and then returns to
`Suspended`; the pending data of the other port of the pair is left
untouched.  The selection polls only the register at base + 1 of the base
port, never a register of the second port. -/
theorem single_wakeup_drains_selected_port_only (bytesA bytesC : List Nat)
    (hA : bytesA ≠ []) :
    (processSerialCycle true (mkHW bytesA [] bytesC [] true)).suspended = true ∧
    (processSerialCycle true (mkHW bytesA [] bytesC [] true)).feeds =
      bytesA.map (fun b => (some PtySlot.a, b)) ∧
    (processSerialCycle true (mkHW bytesA [] bytesC [] true)).hw.rx
      SERIAL_PORT_C = bytesC := by
  have hd := drainRun_nonempty (some PtySlot.a) bytesA hA
  refine ⟨?_, ?_, ?_⟩ <;>
  · simp only [processSerialCycle, computedPort, mkHW, pty_for_port,
      SERIAL_PORT_A, SERIAL_PORT_B, SERIAL_PORT_C, SERIAL_PORT_D]
    norm_num [hd]

/-- Witness for `single_wakeup_drains_selected_port_only`: one byte on
each port of the AC pair. -/
theorem single_wakeup_drains_selected_port_only_witness :
    ([0x41] : List Nat) ≠ [] ∧
    ((processSerialCycle true (mkHW [0x41] [] [0x42] [] true)).suspended = true ∧
     (processSerialCycle true (mkHW [0x41] [] [0x42] [] true)).feeds =
       [0x41].map (fun b => (some PtySlot.a, b)) ∧
     (processSerialCycle true (mkHW [0x41] [] [0x42] [] true)).hw.rx
       SERIAL_PORT_C = [0x42]) :=
  ⟨by simp, single_wakeup_drains_selected_port_only [0x41] [0x42] (by simp)⟩

/-- Helper: masking with `0xFFFFFFFFFFFFFFF0` yields a multiple of 16. -/
theorem align16_mask (y : Nat) : (y &&& 0xFFFFFFFFFFFFFFF0) % 16 = 0 := by
  have h := Nat.and_pow_two_sub_one_eq_mod (y &&& 0xFFFFFFFFFFFFFFF0) 4
  norm_num at h
  rw [← h, Nat.land_assoc,
    show (18446744073709551600 &&& 15 : Nat) = 0 from by decide]
  simp

/-- Helper: for a recorded stack pointer of at least 136 (and below
`2 ^ 64`), the wrapped subtraction in `signalHandlerRsp` is an ordinary
subtraction. -/
theorem signalHandlerRsp_of_ge (prevRsp : Nat) (h136 : 136 ≤ prevRsp)
    (hlt : prevRsp < UINT64_MOD) :
    signalHandlerRsp prevRsp = (prevRsp - 136) &&& 0xFFFFFFFFFFFFFFF0 := by
  have hM : UINT64_MOD = 18446744073709551616 := by norm_num [UINT64_MOD]
  unfold signalHandlerRsp
  rw [hM] at hlt ⊢
  have hsplit : prevRsp + (18446744073709551616 - 128 - 8) =
      (prevRsp - 136) + 18446744073709551616 := by omega
  rw [hsplit, Nat.add_mod_right, Nat.mod_eq_of_lt (by omega)]

/-- Claim C2 as amended: whenever the previously recorded trap-entry
stack pointer of the current thread is at least 136 (so that the
subtraction of the 128-byte red zone plus the 8-byte return slot does not
wrap around the 64-bit space), the stack pointer computed by
`arch_enter_signal_handler` is a multiple of 16, lies strictly below the
recorded pointer, and the sentinel 0x00000008DEADBEEF is stored at the
word it addresses. -/
theorem signal_handler_stack_properties (entrypoint signum prevRsp : Nat)
    (mem : Nat → Nat) (h136 : 136 ≤ prevRsp) (hlt : prevRsp < UINT64_MOD) :
    (arch_enter_signal_handler entrypoint signum prevRsp mem).frame.rsp % 16 = 0 ∧
    (arch_enter_signal_handler entrypoint signum prevRsp mem).frame.rsp < prevRsp ∧
    (arch_enter_signal_handler entrypoint signum prevRsp mem).mem
      (arch_enter_signal_handler entrypoint signum prevRsp mem).frame.rsp =
      0x00000008DEADBEEF := by
  refine ⟨?_, ?_, ?_⟩
  · exact align16_mask _
  · show signalHandlerRsp prevRsp < prevRsp
    rw [signalHandlerRsp_of_ge prevRsp h136 hlt]
    calc (prevRsp - 136) &&& 0xFFFFFFFFFFFFFFF0 ≤ prevRsp - 136 :=
          Nat.and_le_left
      _ < prevRsp := by omega
  · show (if signalHandlerRsp prevRsp = signalHandlerRsp prevRsp
        then 0x00000008DEADBEEF else mem (signalHandlerRsp prevRsp)) =
        0x00000008DEADBEEF
    simp

/-- Witness for `signal_handler_stack_properties`: delivery of signal 2
to a handler at 0x400000 with recorded stack pointer 0x7FFFFFF000. -/
theorem signal_handler_stack_properties_witness :
    136 ≤ 0x7FFFFFF000 ∧ (0x7FFFFFF000 : Nat) < UINT64_MOD ∧
    ((arch_enter_signal_handler 0x400000 2 0x7FFFFFF000
        (fun _ => 0)).frame.rsp % 16 = 0 ∧
     (arch_enter_signal_handler 0x400000 2 0x7FFFFFF000
        (fun _ => 0)).frame.rsp < 0x7FFFFFF000 ∧
     (arch_enter_signal_handler 0x400000 2 0x7FFFFFF000 (fun _ => 0)).mem
       (arch_enter_signal_handler 0x400000 2 0x7FFFFFF000
          (fun _ => 0)).frame.rsp = 0x00000008DEADBEEF) :=
  ⟨by norm_num, by norm_num [UINT64_MOD],
   signal_handler_stack_properties 0x400000 2 0x7FFFFFF000 (fun _ => 0)
     (by norm_num) (by norm_num [UINT64_MOD])⟩

/-- Claim C2 counterexample: at an invocation whose recorded trap-entry
stack pointer is 0, the computed stack pointer wraps to
0xFFFFFFFFFFFFFF70 and is not strictly below the recorded pointer. -/
theorem signal_rsp_wraps_below_136 :
    signalHandlerRsp 0 = 0xFFFFFFFFFFFFFF70 ∧ ¬ signalHandlerRsp 0 < 0 :=
  ⟨by decide, Nat.not_lt_zero _⟩

/-- Helper: the keyboard-controller wait terminates as soon as some read
within the modelled window shows bit 0x02 clear. -/
theorem kbdWaitReadyFrom_finds (stat : Nat → Nat) :
    ∀ (fuel start : Nat), (∃ k, k < fuel ∧ stat (start + k) &&& 0x02 = 0) →
      (kbdWaitReadyFrom stat start fuel).isSome = true := by
  intro fuel
  induction fuel with
  | zero =>
    intro start h
    obtain ⟨k, hk, _⟩ := h
    exact absurd hk (Nat.not_lt_zero k)
  | succ n ih =>
    intro start h
    unfold kbdWaitReadyFrom
    by_cases h0 : stat start &&& 0x02 = 0
    · simp [h0]
    · simp only [h0, if_false]
      apply ih
      obtain ⟨k, hk, hs⟩ := h
      match k, hk, hs with
      | 0, _, hs => exact absurd (by simpa using hs) h0
      | k + 1, hk, hs =>
        exact ⟨k, by omega,
          by rw [show start + 1 + k = start + (k + 1) by omega]; exact hs⟩

/-- Claim C6 as amended: once a read of the keyboard-controller status
port shows the input buffer ready, `arch_reboot` writes the reset command
0xFE to port 0x64 and returns the constant 0 to its caller — returning at
all is what conveys that the reset was not honored, since a honored reset
never lets the function return; the value itself is 0, not a distinct
error code. -/
theorem arch_reboot_returns_zero (stat : Nat → Nat) (fuel : Nat)
    (h : ∃ k, k < fuel ∧ stat k &&& 0x02 = 0) :
    arch_reboot stat fuel = some ([(0x64, 0xFE)], 0) := by
  have hs := kbdWaitReadyFrom_finds stat fuel 0 (by simpa using h)
  unfold arch_reboot
  cases hk : kbdWaitReadyFrom stat 0 fuel with
  | none => rw [hk] at hs; simp at hs
  | some i => rfl

/-- Witness for `arch_reboot_returns_zero`: a controller whose status
reads 0 (ready) from the first read on, reset never honored. -/
theorem arch_reboot_returns_zero_witness :
    (∃ k, k < 1 ∧ (fun _ : Nat => (0 : Nat)) k &&& 0x02 = 0) ∧
    arch_reboot (fun _ => 0) 1 = some ([(0x64, 0xFE)], 0) :=
  ⟨⟨0, by decide, by decide⟩,
   arch_reboot_returns_zero (fun _ => 0) 1 ⟨0, by decide, by decide⟩⟩

/-- Claim C6 counterexample: with the mock controller ready and the reset
command not honored, `arch_reboot` returns the value 0, which is not a
nonzero failure indication. -/
theorem arch_reboot_mock_returns_success_value :
    arch_reboot (fun _ => 0) 1 = some ([(0x64, 0xFE)], 0) ∧
    ¬ signalsNonSuccess 0 :=
  ⟨rfl, by simp [signalsNonSuccess]⟩

/-- Helper: per-core IPI count of `arch_fatal_prepare`, with no
constraint on the calling core or the target index. -/
theorem fatal_prepare_countP (processorCount cpuId : Nat)
    (lapicId : Nat → Nat) (i : Nat) :
    (arch_fatal_prepare processorCount cpuId lapicId).countP (sentHaltTo i) =
      if i < processorCount ∧ i ≠ cpuId then 1 else 0 := by
  induction processorCount with
  | zero => simp [arch_fatal_prepare]
  | succ n ih =>
    have hstep : arch_fatal_prepare (n + 1) cpuId lapicId =
        arch_fatal_prepare n cpuId lapicId ++
          (if n = cpuId then [] else [⟨n, lapicId n, 0x447D⟩]) := by
      unfold arch_fatal_prepare
      rw [List.range_succ, List.filterMap_append]
      by_cases hn : n = cpuId <;> simp [hn]
    rw [hstep, List.countP_append, ih]
    by_cases hn : n = cpuId
    · simp only [if_pos hn, List.countP_nil]
      split_ifs <;> omega
    · have he : sentHaltTo i ⟨n, lapicId n, 0x447D⟩ = (n == i) := by
        simp [sentHaltTo]
      simp only [if_neg hn, List.countP_cons, List.countP_nil, he, beq_iff_eq]
      split_ifs <;> omega

/-- Claim C4: for every processor count, calling core `c` below it, and
core index `i` below it, `arch_fatal_prepare` sends exactly one halt IPI
(payload 0x447D) to each core other than `c` and none to `c` itself. -/
theorem arch_fatal_prepare_halt_ipis (processorCount cpuId : Nat)
    (lapicId : Nat → Nat) (i : Nat) (_hc : cpuId < processorCount)
    (hi : i < processorCount) :
    (arch_fatal_prepare processorCount cpuId lapicId).countP (sentHaltTo i) =
      if i = cpuId then 0 else 1 := by
  rw [fatal_prepare_countP]
  split_ifs <;> omega

/-- Witness for `arch_fatal_prepare_halt_ipis`: three cores, caller core
0, target core 2 (and, by the same theorem at core 0, none to the
caller). -/
theorem arch_fatal_prepare_halt_ipis_witness :
    (0 : Nat) < 3 ∧ (2 : Nat) < 3 ∧
    (arch_fatal_prepare 3 0 (fun j => j)).countP (sentHaltTo 2) =
      (if (2 : Nat) = 0 then 0 else 1) :=
  ⟨by decide, by decide,
   arch_fatal_prepare_halt_ipis 3 0 (fun j => j) 2 (by decide) (by decide)⟩

/-- Helper: effect of a sequence of `serial_device_create` calls on the
one-time flags and on the number of `irq_install_handler` calls per IRQ
line, from an arbitrary starting state. -/
theorem bringUpFrom_spec :
    ∀ (ports : List Nat) (s : SerialKState),
      (bringUpFrom s ports).have_installed_ac =
        (s.have_installed_ac || ports.any isACPort) ∧
      (bringUpFrom s ports).have_installed_bd =
        (s.have_installed_bd || ports.any fun p => !isACPort p) ∧
      (bringUpFrom s ports).installs.count SERIAL_IRQ_AC =
        s.installs.count SERIAL_IRQ_AC +
          (if s.have_installed_ac then 0
           else if ports.any isACPort then 1 else 0) ∧
      (bringUpFrom s ports).installs.count SERIAL_IRQ_BD =
        s.installs.count SERIAL_IRQ_BD +
          (if s.have_installed_bd then 0
           else if ports.any (fun p => !isACPort p) then 1 else 0)
  | [], s => by simp [bringUpFrom]
  | p :: rest, s => by
    have hfold : bringUpFrom s (p :: rest) =
        bringUpFrom (serial_device_create p s) rest := rfl
    have ih := bringUpFrom_spec rest (serial_device_create p s)
    obtain ⟨ih1, ih2, ih3, ih4⟩ := ih
    rw [hfold]
    by_cases hp : isACPort p = true
    · by_cases hac : s.have_installed_ac = true
      · have hcreate : serial_device_create p s = s := by
          simp [serial_device_create, hp, hac]
        rw [hcreate] at ih1 ih2 ih3 ih4
        rw [hcreate]
        refine ⟨?_, ?_, ?_, ?_⟩
        · rw [ih1]; simp [hp, hac]
        · rw [ih2]; simp [hp]
        · rw [ih3]; simp [hac]
        · rw [ih4]; simp [hp]
      · have hcreate : serial_device_create p s =
            { s with have_installed_ac := true
                     installs := s.installs ++ [SERIAL_IRQ_AC] } := by
          simp [serial_device_create, hp, hac]
        rw [hcreate] at ih1 ih2 ih3 ih4
        rw [hcreate]
        refine ⟨?_, ?_, ?_, ?_⟩
        · rw [ih1]; simp [hp, hac]
        · rw [ih2]; simp [hp]
        · rw [ih3]
          simp only [List.count_append, eq_self_iff_true, hac]
          simp [hp, SERIAL_IRQ_AC]
        · rw [ih4]
          simp only [List.count_append]
          simp [hp, SERIAL_IRQ_AC, SERIAL_IRQ_BD]
    · by_cases hbd : s.have_installed_bd = true
      · have hcreate : serial_device_create p s = s := by
          simp [serial_device_create, hp, hbd]
        rw [hcreate] at ih1 ih2 ih3 ih4
        rw [hcreate]
        refine ⟨?_, ?_, ?_, ?_⟩
        · rw [ih1]; simp [hp]
        · rw [ih2]; simp [hp, hbd]
        · rw [ih3]; simp [hp]
        · rw [ih4]; simp [hbd]
      · have hcreate : serial_device_create p s =
            { s with have_installed_bd := true
                     installs := s.installs ++ [SERIAL_IRQ_BD] } := by
          simp [serial_device_create, hp, hbd]
        rw [hcreate] at ih1 ih2 ih3 ih4
        rw [hcreate]
        refine ⟨?_, ?_, ?_, ?_⟩
        · rw [ih1]; simp [hp]
        · rw [ih2]; simp [hp, hbd]
        · rw [ih3]
          simp only [List.count_append]
          simp [hp, SERIAL_IRQ_AC, SERIAL_IRQ_BD]
        · rw [ih4]
          simp only [List.count_append, hbd]
          simp [hp, SERIAL_IRQ_BD]

/-- Claim C7: over any sequence of `serial_device_create` calls from the
initial state, the AC line (IRQ 4) is registered exactly once as soon as
the sequence contains a port of the AC pair and never otherwise, the BD
line (IRQ 3) likewise for the other ports, and the one-time flags record
exactly whether each registration has happened — so bringing up the two
ports sharing a line, in any order and any number of times, yields
exactly one `irq_install_handler` call for that line. -/
theorem one_irq_registration_per_line (ports : List Nat) :
    (bringUp ports).installs.count SERIAL_IRQ_AC =
      (if ports.any isACPort then 1 else 0) ∧
    (bringUp ports).installs.count SERIAL_IRQ_BD =
      (if ports.any (fun p => !isACPort p) then 1 else 0) ∧
    (bringUp ports).have_installed_ac = ports.any isACPort ∧
    (bringUp ports).have_installed_bd = ports.any (fun p => !isACPort p) := by
  have h := bringUpFrom_spec ports serialInit
  obtain ⟨h1, h2, h3, h4⟩ := h
  refine ⟨?_, ?_, ?_, ?_⟩
  · rw [show bringUp ports = bringUpFrom serialInit ports from rfl, h3]
    simp [serialInit]
  · rw [show bringUp ports = bringUpFrom serialInit ports from rfl, h4]
    simp [serialInit]
  · rw [show bringUp ports = bringUpFrom serialInit ports from rfl, h1]
    simp [serialInit]
  · rw [show bringUp ports = bringUpFrom serialInit ports from rfl, h2]
    simp [serialInit]

end Toaru
